import Mathlib

/-!
Shallow embedding of the MolSim AI application (a React molecular-simulation
dashboard).  The data model follows `types.ts`; the state-transition functions
follow the handlers and the simulation `setInterval` body in the `App`
component; the language-model service functions follow `geminiService`.

Numbers that JavaScript holds as IEEE doubles are modelled as rationals: every
value the claims depend on (the progress counter, incremented in steps of 0.5
and compared with 100) is exactly representable, so the rational model agrees
with the double arithmetic of the source on the reachable values.
Environment-supplied values (Date.now(), Math.random(), network responses) are
passed in as explicit parameters.
-/

namespace MolSim

/-- `Sender` enum from types.ts. -/
inductive Sender where
  | user
  | ai
  | system
deriving DecidableEq, Repr

/-- `Message` from types.ts (the optional `isStreaming` flag is never set by
the code modelled here). -/
structure Message where
  id : String
  text : String
  sender : Sender
  timestamp : Nat
deriving DecidableEq, Repr

/-- `CommandType` enum from types.ts. -/
inductive CommandType where
  | LOAD_PDB
  | SET_REPRESENTATION
  | SET_COLOR_SCHEME
  | TOGGLE_SPIN
  | RUN_SIMULATION
  | ANALYZE_DATA
  | PROCESS_SEQUENCE
  | EVALUATE_MODEL
  | QUERY_STRUCTURE
  | UNKNOWN
deriving DecidableEq, Repr

/-- The params object of a `Command`: the fields declared in the Gemini
response schema of geminiService (all nullable). -/
structure CommandParams where
  pdbId : Option String
  style : Option String
  color : Option String
  active : Option Bool
  sequence : Option String
  name : Option String
deriving DecidableEq, Repr

/-- The empty params object `{}`. -/
def CommandParams.empty : CommandParams :=
  { pdbId := none, style := none, color := none, active := none,
    sequence := none, name := none }

/-- `Command` from types.ts. -/
structure Command where
  type : CommandType
  params : CommandParams
  explanation : String
deriving DecidableEq, Repr

/-- `SimulationData` from types.ts: one synthetic trajectory point. -/
structure SimulationData where
  time : ℚ
  rmsd : ℚ
  energy : ℚ
  temperature : ℚ
deriving DecidableEq, Repr

/-- `StructureMetadata` from types.ts. -/
structure StructureMetadata where
  title : String
  method : String
  resolution : String
  keywords : Option String
  releaseDate : Option String
deriving DecidableEq, Repr

/-- `EvaluationMetrics` from types.ts.  The entries are only ever produced by
the mock generator in `handleRunEvaluation` and never inspected, so the row
types are tuples. -/
structure EvaluationMetrics where
  accuracy : List (Nat × ℚ × ℚ)
  fairness : List (String × ℚ)
  robustness : List (ℚ × ℚ)
  interpretability : List (String × ℚ)
  overallScore : ℚ
deriving DecidableEq, Repr

/-- `SimulationStage` from types.ts. -/
inductive SimulationStage where
  | minimization
  | equilibration
  | production
deriving DecidableEq, Repr

/-- `MolecularState` from types.ts.  `representation` and `colorScheme` are
strings: the handlers assign `command.params.style`/`color`, which are
unconstrained strings from the model response. -/
structure MolecularState where
  pdbId : String
  representation : String
  colorScheme : String
  isSpinning : Bool
  simulationRunning : Bool
  simulationProgress : ℚ
  simulationStage : SimulationStage
  simulationData : List SimulationData
  simulationLogs : List String
  customData : Option StructureMetadata
  evaluationData : Option EvaluationMetrics
  activeMetadata : Option StructureMetadata
deriving DecidableEq, Repr

/-- `status` union of `Project` from types.ts. -/
inductive ProjectStatus where
  | active
  | completed
  | archived
deriving DecidableEq, Repr

/-- `Project` from types.ts. -/
structure Project where
  id : String
  name : String
  pdbId : String
  lastModified : Nat
  status : ProjectStatus
deriving DecidableEq, Repr

/-- The `viewMode` union of the App component. -/
inductive ViewMode where
  | viewer
  | analysis
  | evaluation
deriving DecidableEq, Repr

/-- The App component's state that the modelled handlers read or write:
`projects`, `activeProjectId`, `messages`, `viewMode` and `molecularState`.
Transient UI flags (`hasStarted`, `isNavVisible`, `isProcessing`,
`isPushingToGithub`, `evalExplanation`) are not referenced by any modelled
transition's logic and are omitted. -/
structure AppState where
  projects : List Project
  activeProjectId : Option String
  messages : List Message
  viewMode : ViewMode
  molecularState : MolecularState
deriving DecidableEq, Repr

/-- `addMessage` in App: the appended message, with `Date.now()` passed in as
`now` (the id is `Date.now().toString()`). -/
def mkMessage (now : Nat) (text : String) (sender : Sender) : Message :=
  { id := toString now, text := text, sender := sender, timestamp := now }

/-- JavaScript `arr.slice(-n)`: the last `min n arr.length` elements. -/
def sliceLast (n : Nat) (l : List α) : List α :=
  l.drop (l.length - n)

/-- `parseFloat(x.toFixed(d))` on a rational: rounding to `d` decimal digits
(half away from zero on the positives, matching toFixed on the values that
arise here). -/
def toFixedQ (d : Nat) (x : ℚ) : ℚ :=
  (⌊x * (10 : ℚ) ^ d + 1/2⌋ : ℚ) / (10 : ℚ) ^ d

/-- `x.toFixed(d)` rendered as a string (decimal notation with `d` digits
after the point), as used in the NAMD-style log template literal. -/
def toFixedStr (d : Nat) (x : ℚ) : String :=
  let scaled : Int := ⌊x * (10 : ℚ) ^ d + 1/2⌋
  let sign := if scaled < 0 then "-" else ""
  let n := scaled.natAbs
  let ip := n / 10 ^ d
  let fp := n % 10 ^ d
  let fpStr := toString fp
  sign ++ toString ip ++ "." ++
    String.mk (List.replicate (d - fpStr.length) '0') ++ fpStr

/-- The environment inputs of one simulation tick: the `Math.random()` draws
consumed by the interval body (each in `[0,1)`).  `r1`, `r2`, `r3` are the
draws of the stage-specific data generation in consumption order; `rLog` is
the draw of the `Math.random() > 0.7` log gate. -/
structure TickOracle where
  r1 : ℚ
  r2 : ℚ
  r3 : ℚ
  rLog : ℚ
deriving DecidableEq, Repr

/-- The stage-transition block of the interval body: from the current stage
and the already-incremented progress, the `(nextStage, progress, simRunning)`
triple. -/
def stageAdvance (stage : SimulationStage) (p1 : ℚ) :
    SimulationStage × ℚ × Bool :=
  if p1 ≥ 100 then
    match stage with
    | .minimization => (.equilibration, 0, true)
    | .equilibration => (.production, 0, true)
    | .production => (.production, p1, false)
  else (stage, p1, true)

/-- The stage-specific data generation: from the last data point and the
random draws, the new raw `(rmsd, energy, temperature)` values. -/
def genData (stage : SimulationStage) (o : TickOracle) (lastData : SimulationData) :
    ℚ × ℚ × ℚ :=
  match stage with
  | .minimization =>
      (min (1/2) (lastData.rmsd + 1/1000),
       lastData.energy - (o.r1 * 50 + 10),
       max 0 (lastData.temperature + (o.r2 - 1/2)))
  | .equilibration =>
      (lastData.rmsd + 5/1000,
       lastData.energy + (o.r2 - 1/2) * 20,
       lastData.temperature + (300 - lastData.temperature) * (5/100) + (o.r1 - 1/2) * 2)
  | .production =>
      (max (1/2) (lastData.rmsd + (o.r3 - 45/100) * (2/100)),
       lastData.energy + (o.r2 - 1/2) * 40,
       300 + (o.r1 - 1/2) * 5)

/-- The `lastData` local of the interval body: the last point of the
trajectory, or the seed `{time: 0, rmsd: 0, energy: -1000, temperature: 0}`. -/
def tickLastData (prev : MolecularState) : SimulationData :=
  prev.simulationData.getLast?.getD
    { time := 0, rmsd := 0, energy := -1000, temperature := 0 }

/-- The `newDataPoint` local of the interval body. -/
def tickPoint (o : TickOracle) (prev : MolecularState) : SimulationData :=
  let lastData := tickLastData prev
  let newTime := lastData.time + 2
  let g := genData prev.simulationStage o lastData
  { time := toFixedQ 1 newTime, rmsd := toFixedQ 3 g.1,
    energy := toFixedQ 1 g.2.1, temperature := toFixedQ 1 g.2.2 }

/-- The `newLog` local of the interval body: the NAMD-style line when the
`Math.random() > 0.7` gate fires, otherwise the empty (falsy) string. -/
def tickLog (o : TickOracle) (prev : MolecularState) : String :=
  let lastData := tickLastData prev
  let newTime := lastData.time + 2
  let g := genData prev.simulationStage o lastData
  let step : Int := ⌊newTime * 500⌋
  if o.rLog > 7/10 then
    "[NAMD] STEP " ++ toString step ++ " :: T=" ++ toFixedStr 1 g.2.2 ++
      "K :: E_POT=" ++ toFixedStr 1 g.2.1 ++ " :: RMSD=" ++ toFixedStr 3 g.1
  else ""

/-- The `updatedLogs` local of the interval body: prepend the new line and cap
the buffer at 6, or keep the buffer. -/
def tickLogs (o : TickOracle) (prev : MolecularState) : List String :=
  if tickLog o prev = "" then prev.simulationLogs
  else (tickLog o prev :: prev.simulationLogs).take 6

/-- One firing of the simulation `setInterval` body of App: the pure state
update passed to `setMolecularState`. -/
def tick (o : TickOracle) (prev : MolecularState) : MolecularState :=
  let a := stageAdvance prev.simulationStage (prev.simulationProgress + 1/2)
  if a.2.2 = false then
    { prev with simulationRunning := false, simulationProgress := 100 }
  else
    { prev with
        simulationProgress := a.2.1,
        simulationStage := a.1,
        simulationData := sliceLast 100 (prev.simulationData ++ [tickPoint o prev]),
        simulationLogs := tickLogs o prev }

/-- JavaScript truthiness of an optional string (`undefined` and `""` are
falsy), as used in guards like `if (command.params.pdbId)`. -/
def jsTruthy : Option String → Bool
  | none => false
  | some t => t != ""

/-- JavaScript `v || dflt` on an optional string. -/
def jsOr (v : Option String) (dflt : String) : String :=
  if jsTruthy v then v.getD "" else dflt

/-- The reset `MolecularState` literal of `handleCreateProject`. -/
def freshMolecularState : MolecularState :=
  { pdbId := "", representation := "cartoon", colorScheme := "chainid",
    isSpinning := false, simulationRunning := false, simulationProgress := 0,
    simulationStage := .minimization, simulationData := [],
    simulationLogs := [], customData := none, evaluationData := none,
    activeMetadata := none }

/-- `handleCreateProject`: prepends a fresh project, activates it, resets the
molecular state and replaces the message list. -/
def handleCreateProject (now : Nat) (s : AppState) : AppState :=
  let newProject : Project :=
    { id := toString now,
      name := "New Simulation " ++ toString (s.projects.length + 1),
      pdbId := "", lastModified := now, status := .active }
  { projects := newProject :: s.projects,
    activeProjectId := some newProject.id,
    messages := [mkMessage now "New project created. What would you like to simulate?" .ai],
    viewMode := .viewer,
    molecularState := freshMolecularState }

/-- `handleSelectProject`: a no-op on the active project or an unknown id;
otherwise activates the project, loads its pdbId and clears run data. -/
def handleSelectProject (now : Nat) (id : String) (s : AppState) : AppState :=
  if some id = s.activeProjectId then s
  else
    match s.projects.find? (fun p => p.id == id) with
    | none => s
    | some project =>
        { s with
            activeProjectId := some id,
            molecularState :=
              { s.molecularState with
                  pdbId := project.pdbId, simulationRunning := false,
                  simulationData := [], simulationLogs := [],
                  customData := none, evaluationData := none },
            messages := [mkMessage now
              ("Loaded project: " ++ project.name ++ ". Structure " ++
                project.pdbId ++ " is ready.") .system] }

/-- `handleDeleteProject`: filters the project out; if it was active, also
clears the active id and the loaded pdbId and posts a system message. -/
def handleDeleteProject (now : Nat) (id : String) (s : AppState) : AppState :=
  let projects' := s.projects.filter (fun p => p.id != id)
  if s.activeProjectId = some id then
    { s with
        projects := projects',
        activeProjectId := none,
        molecularState := { s.molecularState with pdbId := "" },
        messages := s.messages ++ [mkMessage now "Project deleted." .system] }
  else { s with projects := projects' }

/-- `handlePushToGithub` (with the simulated commit hash passed in): posts one
of two messages and changes nothing else. -/
def handlePushToGithub (now : Nat) (hash : String) (s : AppState) : AppState :=
  if s.molecularState.pdbId = "" ∧ s.molecularState.customData = none then
    { s with messages := s.messages ++
        [mkMessage now "Nothing to push. Please load a structure or create a project first." .system] }
  else
    { s with messages := s.messages ++
        [mkMessage now ("[GIT] Successfully pushed changes to origin/main.\nCommit: " ++
          hash ++ "\nFiles updated: trajectory.dcd, topology.prmtop, analysis.log") .system] }

/-- The `useEffect` that copies a newly loaded pdbId into the active project
entry. -/
def syncActiveProject (now : Nat) (s : AppState) : AppState :=
  match s.activeProjectId with
  | none => s
  | some aid =>
      if s.molecularState.pdbId = "" then s
      else
        { s with projects := s.projects.map (fun p =>
            if p.id == aid && p.pdbId != s.molecularState.pdbId then
              { p with pdbId := s.molecularState.pdbId, lastModified := now }
            else p) }

/-- Whether the current tick is the finishing one: the interval body computes
`simRunning = false` exactly when the incremented progress is at least 100 in
the production stage. -/
def tickFinishes (m : MolecularState) : Bool :=
  (stageAdvance m.simulationStage (m.simulationProgress + 1/2)).2.2 = false

/-- One interval firing at App level: the `setMolecularState` update plus the
completion message the finishing branch posts. -/
def appTick (now : Nat) (o : TickOracle) (s : AppState) : AppState :=
  { s with
      molecularState := tick o s.molecularState,
      messages :=
        if tickFinishes s.molecularState then
          s.messages ++ [mkMessage now "Simulation complete. Full trajectory analysis available." .system]
        else s.messages }

/-- `handleRunEvaluation` (the mock metrics passed in; the `evalExplanation`
UI string is omitted): stores the metrics, switches to the evaluation view and
posts a system message. -/
def runEvaluation (now : Nat) (metrics : EvaluationMetrics) (s : AppState) : AppState :=
  { s with
      molecularState := { s.molecularState with evaluationData := some metrics },
      viewMode := .evaluation,
      messages := s.messages ++ [mkMessage now "Evaluation protocol complete. Metrics updated." .system] }

/-- The `addMessage(text, Sender.User)` call at the top of `handleSendMessage`. -/
def addUserMessage (now : Nat) (text : String) (s : AppState) : AppState :=
  { s with messages := s.messages ++ [mkMessage now text .user] }

/-- The `catch` branch of `handleSendMessage`. -/
def sendMessageCatch (now : Nat) (s : AppState) : AppState :=
  { s with messages := s.messages ++
      [mkMessage now "I'm sorry, I had trouble communicating with the simulation engine." .ai] }

/-- The `LOAD_PDB` case of the command switch, followed by the trailing
`addMessage(command.explanation, Sender.AI)`. -/
def execLoadPdb (now : Nat) (pid : Option String) (expl : String) (s : AppState) : AppState :=
  let s' :=
    if jsTruthy pid then
      { s with
          molecularState := { s.molecularState with
            pdbId := (pid.getD "").trim, simulationData := [], simulationLogs := [],
            customData := none, evaluationData := none, activeMetadata := none },
          viewMode := .viewer }
    else
      { s with
          molecularState := { s.molecularState with
            pdbId := "1AXC", simulationData := [], simulationLogs := [],
            customData := none, evaluationData := none, activeMetadata := none } }
  { s' with messages := s'.messages ++ [mkMessage now expl .ai] }

/-- The `SET_REPRESENTATION` case plus the trailing explanation message. -/
def execSetRepresentation (now : Nat) (style : Option String) (expl : String) (s : AppState) : AppState :=
  { s with
      molecularState := { s.molecularState with representation := jsOr style "cartoon" },
      messages := s.messages ++ [mkMessage now expl .ai] }

/-- The `SET_COLOR_SCHEME` case plus the trailing explanation message. -/
def execSetColorScheme (now : Nat) (color : Option String) (expl : String) (s : AppState) : AppState :=
  { s with
      molecularState := { s.molecularState with colorScheme := jsOr color "chainid" },
      messages := s.messages ++ [mkMessage now expl .ai] }

/-- The `TOGGLE_SPIN` case plus the trailing explanation message (`active` is
tested against `undefined`, not for truthiness). -/
def execToggleSpin (now : Nat) (active : Option Bool) (expl : String) (s : AppState) : AppState :=
  { s with
      molecularState := { s.molecularState with
        isSpinning := active.getD (!s.molecularState.isSpinning) },
      messages := s.messages ++ [mkMessage now expl .ai] }

/-- The `RUN_SIMULATION` case: with no loaded pdbId it posts the fallback
message and returns early (so no explanation message follows); otherwise it
starts the run and posts the protocol message plus the explanation. -/
def execRunSimulation (now : Nat) (expl : String) (s : AppState) : AppState :=
  if s.molecularState.pdbId = "" then
    { s with messages := s.messages ++
        [mkMessage now "Please load a PDB file first before running a simulation." .ai] }
  else
    { s with
        molecularState := { s.molecularState with
          simulationRunning := true, simulationProgress := 0,
          simulationStage := .minimization, simulationData := [],
          simulationLogs := [], evaluationData := none },
        messages := s.messages ++
          [mkMessage now "Initializing simulation protocol: Minimization -> Equilibration -> Production MD." .system,
           mkMessage now expl .ai] }

/-- The `ANALYZE_DATA` case (the awaited summary passed in) plus the trailing
explanation message. -/
def execAnalyzeData (now : Nat) (summary : String) (expl : String) (s : AppState) : AppState :=
  let s' := { s with viewMode := ViewMode.analysis }
  let s'' :=
    if s.molecularState.simulationData.length > 0 then
      { s' with messages := s'.messages ++ [mkMessage now summary .ai] }
    else
      { s' with messages := s'.messages ++
          [mkMessage now "No simulation data found. Run a simulation first to generate trajectory data." .ai] }
  { s'' with messages := s''.messages ++ [mkMessage now expl .ai] }

/-- The `EVALUATE_MODEL` case: announcement message, `handleRunEvaluation`,
then the trailing explanation message. -/
def execEvaluateModel (now : Nat) (metrics : EvaluationMetrics) (expl : String) (s : AppState) : AppState :=
  let s1 := { s with messages := s.messages ++
      [mkMessage now "Running comprehensive AI model evaluation protocol..." .system] }
  let s2 := runEvaluation now metrics s1
  { s2 with messages := s2.messages ++ [mkMessage now expl .ai] }

/-- The `QUERY_STRUCTURE`, `UNKNOWN` and default cases: only the trailing
explanation message. -/
def execQueryOrUnknown (now : Nat) (expl : String) (s : AppState) : AppState :=
  { s with messages := s.messages ++ [mkMessage now expl .ai] }

/-- The `PROCESS_SEQUENCE` case (the AlphaFold workflow), with `Date.now()`
and the ISO date string passed in, plus the trailing explanation message. -/
def execProcessSequence (now : Nat) (today : String) (name : Option String)
    (expl : String) (s : AppState) : AppState :=
  let s1 := { s with messages := s.messages ++
      [mkMessage now "Sequence received. Querying AlphaFold database and running inference..." .system] }
  let newProject : Project :=
    { id := toString now, name := jsOr name "AlphaFold Prediction",
      pdbId := "1CRN", lastModified := now, status := .active }
  let s2 :=
    { s1 with
        projects := newProject :: s1.projects,
        activeProjectId := some newProject.id,
        molecularState := { s1.molecularState with
          pdbId := "1CRN", simulationData := [], simulationLogs := [],
          representation := "cartoon", colorScheme := "residueindex",
          isSpinning := true,
          customData := some
            { title := "AlphaFold Predicted Model",
              method := "AlphaFold v2.3 (Simulated)",
              resolution := "pLDDT > 90 (High Confidence)",
              keywords := some "Structure Prediction, De Novo, AI",
              releaseDate := some today },
          evaluationData := none, activeMetadata := none },
        viewMode := .viewer }
  { s2 with messages := s2.messages ++
      [mkMessage now "Structure predicted successfully. Confidence score (pLDDT) is high. You can now run MD simulations on this model." .system,
       mkMessage now expl .ai] }

/-- `handleMetadataLoaded`. -/
def handleMetadataLoaded (meta : StructureMetadata) (s : AppState) : AppState :=
  { s with molecularState := { s.molecularState with activeMetadata := some meta } }

/-- The render condition of the 3D viewer pane: `molecularState.pdbId ?
<MolecularViewer/> : placeholder`. -/
def viewerShown (m : MolecularState) : Bool :=
  m.pdbId != ""

/-- The initial App state (`Date.now()` at mount passed in as `now0`). -/
def initialAppState (now0 : Nat) : AppState :=
  { projects :=
      [ { id := "p1", name := "Ubiquitin Stability", pdbId := "1UBQ",
          lastModified := now0, status := .active },
        { id := "p2", name := "DNA Helix Study", pdbId := "1BNA",
          lastModified := now0 - 86400000, status := .completed } ],
    activeProjectId := some "p1",
    messages := [
      { id := "1",
        text := "Hello! I'm your Molecular Simulation Assistant. I can run AlphaFold predictions on sequences or simulate PDB structures. Try 'Load PDB 1CRN' or paste a sequence.",
        sender := .ai, timestamp := now0 } ],
    viewMode := .viewer,
    molecularState :=
      { pdbId := "1UBQ", representation := "cartoon", colorScheme := "chainid",
        isSpinning := false, simulationRunning := false, simulationProgress := 0,
        simulationStage := .minimization, simulationData := [],
        simulationLogs := [], customData := none, evaluationData := none,
        activeMetadata := none } }

/-- One state transition of the App: an interval tick (enabled only while the
simulation runs), a project-management handler, the project-sync effect, or
one branch of `handleSendMessage`.  Environment inputs (timestamps, random
draws, the parsed command's fields, network responses) are arbitrary. -/
inductive Step : AppState → AppState → Prop where
  | tick (now : Nat) (o : TickOracle) (s : AppState)
      (h : s.molecularState.simulationRunning = true) :
      Step s (appTick now o s)
  | createProject (now : Nat) (s : AppState) : Step s (handleCreateProject now s)
  | selectProject (now : Nat) (id : String) (s : AppState) :
      Step s (handleSelectProject now id s)
  | deleteProject (now : Nat) (id : String) (s : AppState) :
      Step s (handleDeleteProject now id s)
  | pushToGithub (now : Nat) (hash : String) (s : AppState) :
      Step s (handlePushToGithub now hash s)
  | projectSync (now : Nat) (s : AppState) : Step s (syncActiveProject now s)
  | userMessage (now : Nat) (text : String) (s : AppState) :
      Step s (addUserMessage now text s)
  | sendCatch (now : Nat) (s : AppState) : Step s (sendMessageCatch now s)
  | loadPdb (now : Nat) (pid : Option String) (expl : String) (s : AppState) :
      Step s (execLoadPdb now pid expl s)
  | setRepresentation (now : Nat) (style : Option String) (expl : String) (s : AppState) :
      Step s (execSetRepresentation now style expl s)
  | setColorScheme (now : Nat) (color : Option String) (expl : String) (s : AppState) :
      Step s (execSetColorScheme now color expl s)
  | toggleSpin (now : Nat) (active : Option Bool) (expl : String) (s : AppState) :
      Step s (execToggleSpin now active expl s)
  | runSimulation (now : Nat) (expl : String) (s : AppState) :
      Step s (execRunSimulation now expl s)
  | analyzeData (now : Nat) (summary expl : String) (s : AppState) :
      Step s (execAnalyzeData now summary expl s)
  | evaluateModel (now : Nat) (metrics : EvaluationMetrics) (expl : String) (s : AppState) :
      Step s (execEvaluateModel now metrics expl s)
  | evalButton (now : Nat) (metrics : EvaluationMetrics) (s : AppState) :
      Step s (runEvaluation now metrics s)
  | queryOrUnknown (now : Nat) (expl : String) (s : AppState) :
      Step s (execQueryOrUnknown now expl s)
  | processSequence (now : Nat) (today : String) (name : Option String)
      (expl : String) (s : AppState) :
      Step s (execProcessSequence now today name expl s)
  | metadataLoaded (meta : StructureMetadata) (s : AppState) :
      Step s (handleMetadataLoaded meta s)

/-- The states the App can reach from its initial state through the modelled
transitions. -/
inductive Reachable : AppState → Prop where
  | init (now0 : Nat) : Reachable (initialAppState now0)
  | step {s s' : AppState} : Reachable s → Step s s' → Reachable s'

/-! The geminiService functions.  The outcome of the network call is passed in
as an `ApiResult`; JSON parsing of the response body is passed in as a
function `String → Option Command` (`none` models a `JSON.parse` throw). -/

/-- Outcome of an `ai.models.generateContent` call: the request threw, or it
returned a response whose `text` field is `undefined` or a string. -/
inductive ApiResult where
  | failure
  | success (text : Option String)
deriving DecidableEq, Repr

/-- The fixed fallback `Command` of `parseUserIntent`'s catch block. -/
def fallbackCommand : Command :=
  { type := .UNKNOWN, params := CommandParams.empty,
    explanation := "I'm sorry, I encountered an error processing your request." }

/-- The input preprocessing of `parseUserIntent`: inputs longer than 2000
characters are truncated and marked.  Strings are modelled as character
lists. -/
def processedInput (userText : List Char) : List Char :=
  if userText.length > 2000 then
    userText.take 2000 ++ "...[truncated]".toList
  else userText

/-- The prompt `parseUserIntent` sends: the processed input, wrapped in the
context template when a (truthy) context string is given. -/
def parseUserIntentPrompt (context : Option (List Char)) (userText : List Char) : List Char :=
  match context with
  | none => processedInput userText
  | some ctx =>
      if ctx = [] then processedInput userText
      else "[Context: ".toList ++ ctx ++ "]\nUser Request: ".toList ++ processedInput userText

/-- The result handling of `parseUserIntent`: a thrown call, a missing or
empty `response.text` (`if (!text) throw`), and a `JSON.parse` failure all
land in the catch block and yield the fixed fallback command. -/
def parseUserIntent (parse : String → Option Command) (res : ApiResult) : Command :=
  match res with
  | .failure => fallbackCommand
  | .success none => fallbackCommand
  | .success (some t) =>
      if t = "" then fallbackCommand
      else
        match parse t with
        | none => fallbackCommand
        | some c => c

/-- `generateAnalysisSummary`: `response.text || staticFallback`, with its
catch block returning "Analysis complete.". -/
def generateAnalysisSummary (res : ApiResult) : String :=
  match res with
  | .failure => "Analysis complete."
  | .success none => "Simulation complete. Structure appears stable under simulated conditions."
  | .success (some t) =>
      if t = "" then "Simulation complete. Structure appears stable under simulated conditions."
      else t

/-- `getValidationMethodology`: `response.text || staticFallback`, with its
catch block returning its own static string. -/
def getValidationMethodology (res : ApiResult) : String :=
  match res with
  | .failure => "Unable to retrieve validation methodology."
  | .success none => "Validation methodology data unavailable."
  | .success (some t) =>
      if t = "" then "Validation methodology data unavailable."
      else t

/-- Iterated interval firings with an oracle stream: the molecular state after
`k` ticks. -/
def iterTicks (os : Nat → TickOracle) : Nat → MolecularState → MolecularState
  | 0, s => s
  | k + 1, s => tick (os k) (iterTicks os k s)

/-! Basic lemmas about the interval body. -/

theorem sliceLast_length_le (n : Nat) (l : List α) : (sliceLast n l).length ≤ n := by
  simp only [sliceLast, List.length_drop]
  omega

theorem stageAdvance_of_lt (stage : SimulationStage) (p1 : ℚ) (h : p1 < 100) :
    stageAdvance stage p1 = (stage, p1, true) := by
  unfold stageAdvance
  rw [if_neg (not_le.mpr h)]

theorem stageAdvance_min_ge (p1 : ℚ) (h : 100 ≤ p1) :
    stageAdvance .minimization p1 = (.equilibration, 0, true) := by
  unfold stageAdvance
  rw [if_pos h]

theorem stageAdvance_eq_ge (p1 : ℚ) (h : 100 ≤ p1) :
    stageAdvance .equilibration p1 = (.production, 0, true) := by
  unfold stageAdvance
  rw [if_pos h]

theorem stageAdvance_prod_ge (p1 : ℚ) (h : 100 ≤ p1) :
    stageAdvance .production p1 = (.production, p1, false) := by
  unfold stageAdvance
  rw [if_pos h]

theorem tick_run (o : TickOracle) (prev : MolecularState) {ns : SimulationStage} {p : ℚ}
    (h : stageAdvance prev.simulationStage (prev.simulationProgress + 1/2) = (ns, p, true)) :
    tick o prev = { prev with
        simulationProgress := p,
        simulationStage := ns,
        simulationData := sliceLast 100 (prev.simulationData ++ [tickPoint o prev]),
        simulationLogs := tickLogs o prev } := by
  unfold tick
  rw [h]
  simp

theorem tick_finish (o : TickOracle) (prev : MolecularState) {ns : SimulationStage} {p : ℚ}
    (h : stageAdvance prev.simulationStage (prev.simulationProgress + 1/2) = (ns, p, false)) :
    tick o prev = { prev with simulationRunning := false, simulationProgress := 100 } := by
  unfold tick
  rw [h]
  simp

/-- The place of a stage in the fixed order minimization → equilibration →
production. -/
def stageIdx : SimulationStage → Nat
  | .minimization => 0
  | .equilibration => 1
  | .production => 2

/-- A concrete molecular state used to instantiate the theorems. -/
def mState (st : SimulationStage) (p : ℚ) : MolecularState :=
  { pdbId := "1UBQ", representation := "cartoon", colorScheme := "chainid",
    isSpinning := false, simulationRunning := true, simulationProgress := p,
    simulationStage := st, simulationData := [], simulationLogs := [],
    customData := none, evaluationData := none, activeMetadata := none }

/-- A concrete tick oracle used to instantiate the theorems. -/
def sampleOracle : TickOracle := { r1 := 0, r2 := 0, r3 := 0, rLog := 0 }

/-- A concrete oracle stream used to instantiate the theorems. -/
def sampleStream : ℕ → TickOracle := fun _ => sampleOracle

/-- Claim C1: while the simulation is running, a tick never moves the stage
backward; when the incremented progress counter reaches 100 the stage steps
minimization → equilibration and equilibration → production with progress
reset to 0, in production the run stops with `simulationRunning = false` and
progress set to 100, and below 100 the stage and the running flag are
unchanged. -/
theorem tick_stage_progression (o : TickOracle) (prev : MolecularState)
    (hrun : prev.simulationRunning = true) :
    stageIdx prev.simulationStage ≤ stageIdx (tick o prev).simulationStage
    ∧ (100 ≤ prev.simulationProgress + 1/2 → prev.simulationStage = .minimization →
        (tick o prev).simulationStage = .equilibration ∧ (tick o prev).simulationProgress = 0)
    ∧ (100 ≤ prev.simulationProgress + 1/2 → prev.simulationStage = .equilibration →
        (tick o prev).simulationStage = .production ∧ (tick o prev).simulationProgress = 0)
    ∧ (100 ≤ prev.simulationProgress + 1/2 → prev.simulationStage = .production →
        (tick o prev).simulationRunning = false ∧ (tick o prev).simulationProgress = 100)
    ∧ (prev.simulationProgress + 1/2 < 100 →
        (tick o prev).simulationStage = prev.simulationStage
        ∧ (tick o prev).simulationRunning = true) := by
  by_cases hp : 100 ≤ prev.simulationProgress + 1/2
  · cases hst : prev.simulationStage with
    | minimization =>
        have ht := tick_run o prev (by rw [hst]; exact stageAdvance_min_ge _ hp)
        rw [ht]
        refine ⟨?_, ?_, ?_, ?_, ?_⟩
        · simp [hst, stageIdx]
        · intro _ _
          exact ⟨rfl, rfl⟩
        · intro _ h
          cases h
        · intro _ h
          cases h
        · intro h'
          exact absurd hp (not_le.mpr h')
    | equilibration =>
        have ht := tick_run o prev (by rw [hst]; exact stageAdvance_eq_ge _ hp)
        rw [ht]
        refine ⟨?_, ?_, ?_, ?_, ?_⟩
        · simp [hst, stageIdx]
        · intro _ h
          cases h
        · intro _ _
          exact ⟨rfl, rfl⟩
        · intro _ h
          cases h
        · intro h'
          exact absurd hp (not_le.mpr h')
    | production =>
        have ht := tick_finish o prev (by rw [hst]; exact stageAdvance_prod_ge _ hp)
        rw [ht]
        refine ⟨?_, ?_, ?_, ?_, ?_⟩
        · simp [hst, stageIdx]
        · intro _ h
          cases h
        · intro _ h
          cases h
        · intro _ _
          exact ⟨rfl, rfl⟩
        · intro h'
          exact absurd hp (not_le.mpr h')
  · have ht := tick_run o prev (stageAdvance_of_lt _ _ (not_le.mp hp))
    rw [ht]
    refine ⟨Nat.le_refl _, ?_, ?_, ?_, fun _ => ⟨rfl, hrun⟩⟩
    all_goals intro h100 _
    all_goals exact absurd h100 hp

theorem tick_stage_progression_witness :
    (tick sampleOracle (mState .minimization (199/2))).simulationStage = .equilibration
    ∧ (tick sampleOracle (mState .minimization (199/2))).simulationProgress = 0 :=
  (tick_stage_progression sampleOracle (mState .minimization (199/2)) rfl).2.1
    (by norm_num [mState]) rfl

/-- Claim C2 counterexample: the tick that ends the run (production stage at
progress 99.5) returns early and leaves `simulationData` unchanged, so a tick
that ends the run does not append a data point. -/
theorem finishing_tick_no_append :
    (tick sampleOracle (mState .production (199/2))).simulationRunning = false
    ∧ (tick sampleOracle (mState .production (199/2))).simulationData.length
        = (mState .production (199/2)).simulationData.length := by
  have hadv : stageAdvance (mState .production (199/2)).simulationStage
      ((mState .production (199/2)).simulationProgress + 1/2)
      = (.production, 199/2 + 1/2, false) := by
    show stageAdvance .production ((199:ℚ)/2 + 1/2) = _
    exact stageAdvance_prod_ge _ (by norm_num)
  rw [tick_finish sampleOracle _ hadv]
  exact ⟨rfl, rfl⟩

/-- Claim C2 (amended): a tick that leaves `simulationRunning` true appends
exactly one new data point and then keeps only the most recent 100 entries
(the new length is `min (old + 1) 100`); the tick that ends a run leaves
`simulationData` unchanged. -/
theorem tick_data_append (o : TickOracle) (prev : MolecularState) :
    ((tick o prev).simulationRunning = true →
        (tick o prev).simulationData.length = min (prev.simulationData.length + 1) 100)
    ∧ (prev.simulationRunning = true → (tick o prev).simulationRunning = false →
        (tick o prev).simulationData = prev.simulationData) := by
  rcases ha : stageAdvance prev.simulationStage (prev.simulationProgress + 1/2)
    with ⟨ns, p, b⟩
  cases b with
  | false =>
      rw [tick_finish o prev ha]
      constructor
      · intro h
        simp at h
      · intro _ _
        rfl
  | true =>
      rw [tick_run o prev ha]
      constructor
      · intro _
        simp only [sliceLast, List.length_drop, List.length_append, List.length_cons,
          List.length_nil]
        omega
      · intro hrun hfalse
        simp only at hfalse
        rw [hrun] at hfalse
        cases hfalse

theorem tick_data_append_witness :
    (tick sampleOracle (mState .minimization 0)).simulationData.length
      = min ((mState .minimization 0).simulationData.length + 1) 100 := by
  apply (tick_data_append sampleOracle (mState .minimization 0)).1
  have hadv : stageAdvance (mState .minimization 0).simulationStage
      ((mState .minimization 0).simulationProgress + 1/2)
      = (.minimization, (0:ℚ) + 1/2, true) := by
    show stageAdvance .minimization ((0:ℚ) + 1/2) = _
    exact stageAdvance_of_lt _ _ (by norm_num)
  rw [tick_run sampleOracle _ hadv]
  rfl

/-- Claim C4: a tick leaves the log buffer unchanged or prepends exactly one
newly formatted line at the front and caps the buffer at 6 entries, so the
buffer length never exceeds 6. -/
theorem tick_log_buffer (o : TickOracle) (prev : MolecularState) :
    ((tick o prev).simulationLogs = prev.simulationLogs
      ∨ (tick o prev).simulationLogs = (tickLog o prev :: prev.simulationLogs).take 6)
    ∧ (prev.simulationLogs.length ≤ 6 → (tick o prev).simulationLogs.length ≤ 6) := by
  rcases ha : stageAdvance prev.simulationStage (prev.simulationProgress + 1/2)
    with ⟨ns, p, b⟩
  cases b with
  | false =>
      rw [tick_finish o prev ha]
      exact ⟨Or.inl rfl, fun h => h⟩
  | true =>
      rw [tick_run o prev ha]
      simp only [tickLogs]
      by_cases hl : tickLog o prev = ""
      · rw [if_pos hl]
        exact ⟨Or.inl rfl, fun h => h⟩
      · rw [if_neg hl]
        refine ⟨Or.inr rfl, fun _ => ?_⟩
        simp only [List.length_take]
        omega

theorem tick_log_buffer_witness :
    (tick sampleOracle (mState .minimization 0)).simulationLogs.length ≤ 6 :=
  (tick_log_buffer sampleOracle (mState .minimization 0)).2 (by simp [mState])

/-! Field characterizations of the project handlers. -/

theorem handleSelectProject_projects (now : Nat) (id : String) (s : AppState) :
    (handleSelectProject now id s).projects = s.projects := by
  unfold handleSelectProject
  split
  · rfl
  · split <;> rfl

theorem handleSelectProject_active (now : Nat) (id : String) (s : AppState) :
    (handleSelectProject now id s).activeProjectId = s.activeProjectId
    ∨ ((handleSelectProject now id s).activeProjectId = some id
        ∧ ∃ p ∈ s.projects, p.id = id) := by
  unfold handleSelectProject
  split
  · exact Or.inl rfl
  · split
    · exact Or.inl rfl
    · rename_i project hfind
      right
      refine ⟨rfl, project, List.mem_of_find?_eq_some hfind, ?_⟩
      simpa using List.find?_some hfind

theorem handleDeleteProject_projects (now : Nat) (id : String) (s : AppState) :
    (handleDeleteProject now id s).projects = s.projects.filter (fun p => p.id != id) := by
  unfold handleDeleteProject
  split <;> rfl

theorem handleDeleteProject_pos (now : Nat) (id : String) (s : AppState)
    (hact : s.activeProjectId = some id) :
    (handleDeleteProject now id s).activeProjectId = none
    ∧ (handleDeleteProject now id s).molecularState
        = { s.molecularState with pdbId := "" } := by
  unfold handleDeleteProject
  rw [if_pos hact]
  exact ⟨rfl, rfl⟩

theorem handleDeleteProject_neg (now : Nat) (id : String) (s : AppState)
    (hact : ¬ s.activeProjectId = some id) :
    (handleDeleteProject now id s).activeProjectId = s.activeProjectId
    ∧ (handleDeleteProject now id s).molecularState = s.molecularState := by
  unfold handleDeleteProject
  rw [if_neg hact]
  exact ⟨rfl, rfl⟩

/-- The active-project consistency property: `activeProjectId` is null or the
id of some project in the list. -/
def activeIdConsistent (s : AppState) : Prop :=
  ∀ i, s.activeProjectId = some i → ∃ p ∈ s.projects, p.id = i

/-- Claim C5: creating a project, selecting a project, deleting a project and
the PROCESS_SEQUENCE (AlphaFold) workflow each preserve the property that
`activeProjectId` is null or the id of a project present in the list. -/
theorem project_ops_active_id (now : Nat) (id today : String) (name : Option String)
    (expl : String) (s : AppState) (h : activeIdConsistent s) :
    activeIdConsistent (handleCreateProject now s)
    ∧ activeIdConsistent (handleSelectProject now id s)
    ∧ activeIdConsistent (handleDeleteProject now id s)
    ∧ activeIdConsistent (execProcessSequence now today name expl s) := by
  refine ⟨?_, ?_, ?_, ?_⟩
  · intro i hi
    simp only [handleCreateProject, Option.some.injEq] at hi
    exact ⟨_, List.mem_cons_self _ _, by simp [hi]⟩
  · intro i hi
    rw [handleSelectProject_projects]
    rcases handleSelectProject_active now id s with hact | ⟨hact, project, hmem, hpid⟩
    · rw [hact] at hi
      exact h i hi
    · rw [hact] at hi
      injection hi with h2
      subst h2
      exact ⟨project, hmem, hpid⟩
  · intro i hi
    rw [handleDeleteProject_projects]
    by_cases hact : s.activeProjectId = some id
    · rw [(handleDeleteProject_pos now id s hact).1] at hi
      cases hi
    · rw [(handleDeleteProject_neg now id s hact).1] at hi
      rcases h i hi with ⟨p, hp, hpid⟩
      refine ⟨p, ?_, hpid⟩
      simp only [List.mem_filter, bne_iff_ne, ne_eq]
      refine ⟨hp, ?_⟩
      intro hpeq
      apply hact
      rw [hi]
      rw [← hpid, hpeq]
  · intro i hi
    simp only [execProcessSequence, Option.some.injEq] at hi
    exact ⟨_, List.mem_cons_self _ _, by simp [hi]⟩

theorem project_ops_active_id_witness :
    activeIdConsistent (handleCreateProject 7 (initialAppState 0)) :=
  (project_ops_active_id 7 "p1" "2026-10-11" none "" (initialAppState 0)
    (by intro i hi
        simp only [initialAppState, Option.some.injEq] at hi
        exact ⟨_, List.mem_cons_self _ _, by simp [hi]⟩)).1

/-- Claim C7: deleting the active project removes every project with that id,
keeps the others, nulls `activeProjectId` and clears `pdbId`, so the structure
viewer (rendered only for a non-empty pdbId) is cleared; deleting a non-active
project removes only that project and leaves `activeProjectId` and the whole
molecular state unchanged. -/
theorem delete_project_behavior (now : Nat) (id : String) (s : AppState) :
    (s.activeProjectId = some id →
        (∀ p ∈ (handleDeleteProject now id s).projects, p.id ≠ id)
        ∧ (∀ p ∈ s.projects, p.id ≠ id → p ∈ (handleDeleteProject now id s).projects)
        ∧ (handleDeleteProject now id s).activeProjectId = none
        ∧ (handleDeleteProject now id s).molecularState.pdbId = ""
        ∧ viewerShown (handleDeleteProject now id s).molecularState = false)
    ∧ (s.activeProjectId ≠ some id →
        (∀ p ∈ (handleDeleteProject now id s).projects, p.id ≠ id)
        ∧ (∀ p ∈ s.projects, p.id ≠ id → p ∈ (handleDeleteProject now id s).projects)
        ∧ (handleDeleteProject now id s).activeProjectId = s.activeProjectId
        ∧ (handleDeleteProject now id s).molecularState = s.molecularState) := by
  have hmem1 : ∀ p ∈ (handleDeleteProject now id s).projects, p.id ≠ id := by
    intro p hp
    rw [handleDeleteProject_projects] at hp
    simp only [List.mem_filter, bne_iff_ne, ne_eq] at hp
    exact hp.2
  have hmem2 : ∀ p ∈ s.projects, p.id ≠ id → p ∈ (handleDeleteProject now id s).projects := by
    intro p hp hne
    rw [handleDeleteProject_projects]
    simp only [List.mem_filter, bne_iff_ne, ne_eq]
    exact ⟨hp, hne⟩
  constructor
  · intro hact
    refine ⟨hmem1, hmem2, (handleDeleteProject_pos now id s hact).1, ?_, ?_⟩
    · rw [(handleDeleteProject_pos now id s hact).2]
    · rw [(handleDeleteProject_pos now id s hact).2]
      rfl
  · intro hact
    exact ⟨hmem1, hmem2, (handleDeleteProject_neg now id s hact).1,
      (handleDeleteProject_neg now id s hact).2⟩

theorem delete_project_behavior_witness :
    (handleDeleteProject 3 "p1" (initialAppState 0)).activeProjectId = none
    ∧ viewerShown (handleDeleteProject 3 "p1" (initialAppState 0)).molecularState = false
    ∧ (handleDeleteProject 3 "p2" (initialAppState 0)).molecularState
        = (initialAppState 0).molecularState :=
  ⟨((delete_project_behavior 3 "p1" (initialAppState 0)).1 rfl).2.2.1,
   ((delete_project_behavior 3 "p1" (initialAppState 0)).1 rfl).2.2.2.2,
   ((delete_project_behavior 3 "p2" (initialAppState 0)).2 (by simp [initialAppState])).2.2.2⟩

/-- Claim C8: dispatching RUN_SIMULATION with an empty `pdbId` leaves the
whole state unchanged except for appending the single fallback message (in
particular the molecular state, and with it `simulationRunning`, is
untouched and no run starts). -/
theorem run_simulation_guard (now : Nat) (expl : String) (s : AppState)
    (h : s.molecularState.pdbId = "") :
    execRunSimulation now expl s =
      { s with messages := s.messages ++
          [mkMessage now "Please load a PDB file first before running a simulation." .ai] }
    ∧ (execRunSimulation now expl s).molecularState = s.molecularState
    ∧ (execRunSimulation now expl s).molecularState.simulationRunning
        = s.molecularState.simulationRunning := by
  unfold execRunSimulation
  rw [if_pos h]
  exact ⟨rfl, rfl, rfl⟩

theorem run_simulation_guard_witness :
    execRunSimulation 9 "Starting." (handleCreateProject 1 (initialAppState 0))
      = { handleCreateProject 1 (initialAppState 0) with
          messages := (handleCreateProject 1 (initialAppState 0)).messages ++
            [mkMessage 9 "Please load a PDB file first before running a simulation." .ai] } :=
  (run_simulation_guard 9 "Starting." (handleCreateProject 1 (initialAppState 0)) rfl).1

/-- Claim C6: the three geminiService functions never propagate an error: a
thrown call, a missing `response.text`, or an unparseable body each yield the
fixed fallback command (type UNKNOWN, empty params, fixed apology), and the
two summary functions yield their fixed static fallback strings. -/
theorem gemini_service_fallbacks (parse : String → Option Command) (t : String)
    (hparse : parse t = none) :
    parseUserIntent parse .failure = fallbackCommand
    ∧ parseUserIntent parse (.success none) = fallbackCommand
    ∧ parseUserIntent parse (.success (some t)) = fallbackCommand
    ∧ fallbackCommand =
        { type := .UNKNOWN, params := CommandParams.empty,
          explanation := "I'm sorry, I encountered an error processing your request." }
    ∧ generateAnalysisSummary .failure = "Analysis complete."
    ∧ generateAnalysisSummary (.success none)
        = "Simulation complete. Structure appears stable under simulated conditions."
    ∧ getValidationMethodology .failure = "Unable to retrieve validation methodology."
    ∧ getValidationMethodology (.success none)
        = "Validation methodology data unavailable." := by
  refine ⟨rfl, rfl, ?_, rfl, rfl, rfl, rfl, rfl⟩
  by_cases ht : t = ""
  · simp [parseUserIntent, ht]
  · simp [parseUserIntent, ht, hparse]

theorem gemini_service_fallbacks_witness :
    parseUserIntent (fun _ => none) (.success (some "not json")) = fallbackCommand :=
  (gemini_service_fallbacks (fun _ => none) "not json" rfl).2.2.1

/-- Claim C10: `parseUserIntent` truncates inputs longer than 2000 characters
to their first 2000 characters plus the literal "...[truncated]" suffix,
passes inputs of at most 2000 characters through unchanged, and the prompt it
sends ends with the processed input (so it contains exactly the truncated
text). -/
theorem parse_input_truncation (userText : List Char) (context : Option (List Char)) :
    (userText.length > 2000 →
        processedInput userText = userText.take 2000 ++ "...[truncated]".toList)
    ∧ (userText.length ≤ 2000 → processedInput userText = userText)
    ∧ processedInput userText <:+ parseUserIntentPrompt context userText := by
  refine ⟨?_, ?_, ?_⟩
  · intro hlen
    unfold processedInput
    rw [if_pos hlen]
  · intro hlen
    unfold processedInput
    rw [if_neg (by omega)]
  · rcases context with _ | ctx
    · exact List.suffix_refl _
    · simp only [parseUserIntentPrompt]
      by_cases hc : ctx = []
      · rw [if_pos hc]
      · rw [if_neg hc]
        exact ⟨_, rfl⟩

theorem parse_input_truncation_witness :
    processedInput (List.replicate 2001 'a')
      = (List.replicate 2001 'a').take 2000 ++ "...[truncated]".toList :=
  (parse_input_truncation (List.replicate 2001 'a') none).1
    (by rw [List.length_replicate]; omega)

theorem iterTicks_succ (os : ℕ → TickOracle) (k : ℕ) (s : MolecularState) :
    iterTicks os (k + 1) s = tick (os k) (iterTicks os k s) := rfl

theorem iterTicks_minimization_progress (os : ℕ → TickOracle) (s0 : MolecularState)
    (hst : s0.simulationStage = .minimization) (hp : s0.simulationProgress = 0) :
    ∀ k, k ≤ 199 → (iterTicks os k s0).simulationStage = .minimization
      ∧ (iterTicks os k s0).simulationProgress = (k : ℚ) / 2 := by
  intro k
  induction k with
  | zero =>
      intro _
      refine ⟨hst, ?_⟩
      show s0.simulationProgress = ((0 : ℕ) : ℚ) / 2
      rw [hp]
      norm_num
  | succ n ih =>
      intro hn
      obtain ⟨hs, hpr⟩ := ih (by omega)
      have hlt : (iterTicks os n s0).simulationProgress + 1/2 < 100 := by
        rw [hpr]
        have hn' : (n : ℚ) ≤ 198 := by exact_mod_cast (show n ≤ 198 by omega)
        linarith
      have ht := tick_run (os n) (iterTicks os n s0) (stageAdvance_of_lt _ _ hlt)
      rw [iterTicks_succ, ht]
      constructor
      · exact hs
      · show (iterTicks os n s0).simulationProgress + 1/2 = ((n + 1 : ℕ) : ℚ) / 2
        rw [hpr]
        push_cast
        ring

/-- Claim C3: starting a run at progress 0 in the minimization stage with the
0.5-per-tick increment, the stage is still minimization after every tick up to
the 199th and first becomes equilibration (with progress reset to 0) on
exactly the 200th tick, the first tick on which the incremented counter
reaches 100. -/
theorem stage_transition_tick_200 (os : ℕ → TickOracle) (s0 : MolecularState)
    (hst : s0.simulationStage = .minimization) (hp : s0.simulationProgress = 0) :
    (∀ k, k ≤ 199 → (iterTicks os k s0).simulationStage = .minimization)
    ∧ (iterTicks os 200 s0).simulationStage = .equilibration
    ∧ (iterTicks os 200 s0).simulationProgress = 0 := by
  obtain ⟨hs, hpr⟩ := iterTicks_minimization_progress os s0 hst hp 199 (by omega)
  have hadv : stageAdvance (iterTicks os 199 s0).simulationStage
      ((iterTicks os 199 s0).simulationProgress + 1/2) = (.equilibration, 0, true) := by
    rw [hs, hpr]
    exact stageAdvance_min_ge _ (by norm_num)
  have ht := tick_run (os 199) (iterTicks os 199 s0) hadv
  refine ⟨fun k hk => (iterTicks_minimization_progress os s0 hst hp k hk).1, ?_, ?_⟩
  · rw [show (200:ℕ) = 199 + 1 from rfl, iterTicks_succ, ht]
  · rw [show (200:ℕ) = 199 + 1 from rfl, iterTicks_succ, ht]

theorem stage_transition_tick_200_witness :
    (iterTicks sampleStream 200 (mState .minimization 0)).simulationStage
      = .equilibration :=
  (stage_transition_tick_200 sampleStream (mState .minimization 0) rfl rfl).2.1

theorem tick_data_le (o : TickOracle) (m : MolecularState)
    (h : m.simulationData.length ≤ 100) :
    (tick o m).simulationData.length ≤ 100 := by
  rcases ha : stageAdvance m.simulationStage (m.simulationProgress + 1/2) with ⟨ns, p, b⟩
  cases b with
  | false =>
      rw [tick_finish o m ha]
      exact h
  | true =>
      rw [tick_run o m ha]
      exact sliceLast_length_le 100 _

/-- Claim C9: in every state the App can reach through the modelled
transitions, `simulationData` holds at most 100 points: each tick appends the
new point and keeps only the most recent 100 and every other transition
clears the list or leaves it unchanged. -/
theorem reachable_simulation_data_le_100 (s : AppState) (h : Reachable s) :
    s.molecularState.simulationData.length ≤ 100 := by
  induction h with
  | init now0 => simp [initialAppState]
  | step hr hstep ih =>
      cases hstep with
      | tick now o hrun => exact tick_data_le o _ ih
      | createProject now => simp [handleCreateProject, freshMolecularState]
      | selectProject now id =>
          unfold handleSelectProject
          split
          · exact ih
          · split
            · exact ih
            · simp
      | deleteProject now id =>
          unfold handleDeleteProject
          split
          · exact ih
          · exact ih
      | pushToGithub now hash =>
          unfold handlePushToGithub
          split
          · exact ih
          · exact ih
      | projectSync now =>
          unfold syncActiveProject
          split
          · exact ih
          · split
            · exact ih
            · exact ih
      | userMessage now text => exact ih
      | sendCatch now => exact ih
      | loadPdb now pid expl =>
          unfold execLoadPdb
          split
          · simp
          · simp
      | setRepresentation now style expl => exact ih
      | setColorScheme now color expl => exact ih
      | toggleSpin now active expl => exact ih
      | runSimulation now expl =>
          unfold execRunSimulation
          split
          · exact ih
          · simp
      | analyzeData now summary expl =>
          unfold execAnalyzeData
          split
          · exact ih
          · exact ih
      | evaluateModel now metrics expl => exact ih
      | evalButton now metrics => exact ih
      | queryOrUnknown now expl => exact ih
      | processSequence now today name expl => simp [execProcessSequence]
      | metadataLoaded meta => exact ih

theorem reachable_simulation_data_le_100_witness :
    (initialAppState 0).molecularState.simulationData.length ≤ 100 :=
  reachable_simulation_data_le_100 (initialAppState 0) (Reachable.init 0)

end MolSim
